import Mathlib

/-!
Verification of the task-analysis backend (`src/app.py`), a Flask server
with two POST endpoints, `/api/analyze` and `/api/suggest`.  Each handler
extracts one required field of the JSON request body, builds a prompt,
invokes an external LLM provider through a LangChain chain
`prompt | llm | parser`, and returns the parsed result.

The embedding below mirrors `app.py` directly.  Behaviour of the external
libraries is modelled at the level of their documented contracts:

* `flask.request.get_json()` either yields the parsed JSON body or raises
  (a `BadRequest` / `UnsupportedMediaType` exception) when the body is
  absent or unparsable; the exception is an ordinary `Exception`.
* `dict.get(key)` yields the value or `None`; calling `.get` on a parsed
  body that is not a JSON object raises `AttributeError`.
* `langchain.output_parsers.JsonOutputParser` parses the provider's raw
  text as JSON and returns the resulting value as-is.  Per its documented
  contract it does NOT validate the value against the `pydantic_object`
  it was constructed with (that object is only used for
  `get_format_instructions()`); on unparsable text it raises an
  `OutputParserException`.  In particular the chain never raises a
  pydantic `ValidationError`.
* The provider call itself may raise a transport-level exception.

So one invocation of the chain is modelled by a `ChainOutcome`: either a
parsed JSON value, a parse failure (carrying the provider's raw text), or
a transport failure.  Handlers are total functions from the request body
and the chain outcome to an HTTP response paired with the number of
provider invocations performed.
-/

/-- JSON values, as produced by `request.get_json()` and by the output
parser.  Numbers are modelled as integers; no claim depends on
fractional numbers. -/
inductive JValue where
  | null : JValue
  | bool (b : Bool) : JValue
  | num (n : Int) : JValue
  | str (s : String) : JValue
  | arr (xs : List JValue) : JValue
  | obj (fields : List (String × JValue)) : JValue

/-- Python truthiness (`if not x`): `None`, `False`, `0`, `""`, `[]` and
`{}` are falsy. -/
def pyFalsy : JValue → Bool
  | .null => true
  | .bool b => !b
  | .num n => n == 0
  | .str s => s.isEmpty
  | .arr xs => xs.isEmpty
  | .obj fs => fs.isEmpty

/-- `dict.get(key)` on a JSON object: the first binding of `key`, when
present. -/
def jget (fields : List (String × JValue)) (key : String) : Option JValue :=
  (fields.find? (fun p => p.1 == key)).map (fun p => p.2)

/-- Truthiness of `dict.get`'s result: `None` (absent key) is falsy. -/
def pyNotOpt : Option JValue → Bool
  | none => true
  | some v => pyFalsy v

/-- The request body as the handler sees it through
`request.get_json()`: either the parsed JSON value, or no JSON (absent
or unparsable body, in which case `get_json` raises). -/
inductive RequestBody where
  | noJson : RequestBody
  | json (v : JValue) : RequestBody

/-- Outcome of one invocation of the chain `prompt | llm | parser`:
the parsed JSON value of the provider's raw text, a parse failure
carrying that raw text (`OutputParserException`), or a transport-level
failure of the provider call. -/
inductive ChainOutcome where
  | output (v : JValue) : ChainOutcome
  | parseFailure (raw : String) : ChainOutcome
  | transportFailure : ChainOutcome

/-- Kinds of exception that can reach a handler's `except` clauses.
`pydanticValidationError` is listed because `analyze_handler` has an
`except ValidationError` clause, but no step of the pipeline raises it. -/
inductive ExcKind where
  | badRequest : ExcKind
  | attributeError : ExcKind
  | outputParserError (raw : String) : ExcKind
  | transportError : ExcKind
  | pydanticValidationError (details : String) : ExcKind

/-- `except ValidationError` matches only a pydantic `ValidationError`. -/
def isValidationError : ExcKind → Bool
  | .pydanticValidationError _ => true
  | _ => false

/-- `str(e)` of a pydantic `ValidationError`, as interpolated into the
`details` field of the corresponding error body. -/
def excStr : ExcKind → String
  | .pydanticValidationError d => d
  | _ => ""

/-- An HTTP response: status code and JSON body. -/
structure HttpResponse where
  status : Nat
  body : JValue

/-- `jsonify({"error": msg})`. -/
def errBody (msg : String) : JValue := .obj [("error", .str msg)]

/-- Result of a handler's `try` block: a returned response or a raised
exception. -/
inductive TryResult where
  | ok (r : HttpResponse) : TryResult
  | exc (e : ExcKind) : TryResult

/-- The `try` block of `analyze_handler` (src/app.py lines 63-89),
paired with the number of provider invocations it performs:
parse the body, read `task_text`, reject falsy `task_text` with 400,
otherwise invoke the chain and return its parsed output with 200. -/
def analyzeTry (body : RequestBody) (chain : ChainOutcome) : TryResult × Nat :=
  match body with
  | .noJson => (.exc .badRequest, 0)
  | .json data =>
    match data with
    | .obj fields =>
      let task_text := jget fields "task_text"
      if pyNotOpt task_text then
        (.ok ⟨400, errBody "Missing task_text"⟩, 0)
      else
        match chain with
        | .output v => (.ok ⟨200, v⟩, 1)
        | .parseFailure raw => (.exc (.outputParserError raw), 1)
        | .transportFailure => (.exc .transportError, 1)
    | _ => (.exc .attributeError, 0)

/-- `analyze_handler` (src/app.py lines 61-96): the `try` block wrapped
in `except ValidationError` (500 with details) and `except Exception`
(500 generic).  Returns the HTTP response and the provider call count. -/
def analyze_handler (body : RequestBody) (chain : ChainOutcome) :
    HttpResponse × Nat :=
  match analyzeTry body chain with
  | (.ok r, n) => (r, n)
  | (.exc e, n) =>
    if isValidationError e then
      (⟨500, .obj [("error", .str "AI returned invalid structure."),
                   ("details", .str (excStr e))]⟩, n)
    else
      (⟨500, errBody "Internal Server Error during AI analysis."⟩, n)

/-- The `try` block of `suggest_handler` (src/app.py lines 102-123),
paired with the provider call count: parse the body, read
`partial_task`, reject falsy `partial_task` with 400, otherwise invoke
the chain and return its parsed output with 200. -/
def suggestTry (body : RequestBody) (chain : ChainOutcome) : TryResult × Nat :=
  match body with
  | .noJson => (.exc .badRequest, 0)
  | .json data =>
    match data with
    | .obj fields =>
      let partial_task := jget fields "partial_task"
      if pyNotOpt partial_task then
        (.ok ⟨400, errBody "Missing partial_task"⟩, 0)
      else
        match chain with
        | .output v => (.ok ⟨200, v⟩, 1)
        | .parseFailure raw => (.exc (.outputParserError raw), 1)
        | .transportFailure => (.exc .transportError, 1)
    | _ => (.exc .attributeError, 0)

/-- `suggest_handler` (src/app.py lines 100-127): the `try` block wrapped
in a single `except Exception` clause (500 generic). -/
def suggest_handler (body : RequestBody) (chain : ChainOutcome) :
    HttpResponse × Nat :=
  match suggestTry body chain with
  | (.ok r, n) => (r, n)
  | (.exc _, n) =>
    (⟨500, errBody "Internal Server Error during suggestion generation."⟩, n)

/-- The `effort_score` enum declared on the `TaskAnalysis` pydantic field
(src/app.py lines 46-47). -/
def effortEnum : List String := ["Low", "Medium", "High", "Critical"]

/-- Whether a JSON value conforms to the `TaskAnalysis` schema declared
in src/app.py lines 39-47: an object with string fields `text`, `time`,
`category`, `note`, a boolean field `urgent`, and an `effort_score`
string drawn from `effortEnum`. -/
def conformsTaskAnalysis (v : JValue) : Bool :=
  match v with
  | .obj fields =>
    (match jget fields "text" with | some (.str _) => true | _ => false) &&
    (match jget fields "time" with | some (.str _) => true | _ => false) &&
    (match jget fields "category" with | some (.str _) => true | _ => false) &&
    (match jget fields "urgent" with | some (.bool _) => true | _ => false) &&
    (match jget fields "note" with | some (.str _) => true | _ => false) &&
    (match jget fields "effort_score" with
     | some (.str s) => effortEnum.contains s
     | _ => false)
  | _ => false

/-- Whether a JSON object has a given key. -/
def hasKey (v : JValue) (key : String) : Bool :=
  match v with
  | .obj fields => (jget fields key).isSome
  | _ => false

/-- Module-level startup of src/app.py lines 19-35: read
`GEMINI_API_KEY` from the environment; a missing (or empty, hence falsy)
value raises `ValueError` before the Flask app is created, so before any
listener can be bound.  On success the configured state holds the key. -/
structure AppState where
  apiKey : String
deriving DecidableEq, Repr

/-- `moduleInit env`: the import-time sequence of src/app.py.
`env` maps variable names to their values in the process environment. -/
def moduleInit (env : String → Option String) : Except String AppState :=
  match env "GEMINI_API_KEY" with
  | none =>
    .error "GEMINI_API_KEY environment variable not found. Please set it in Netlify or .env."
  | some k =>
    if k.isEmpty then
      .error "GEMINI_API_KEY environment variable not found. Please set it in Netlify or .env."
    else
      .ok ⟨k⟩

/-- Derived characterization (not itself an embedding of a source
function): the response of `analyze_handler` whenever the chain does not
yield a parsed output — it depends only on the request body. -/
def analyzeFailResp (body : RequestBody) : HttpResponse × Nat :=
  match body with
  | .noJson => (⟨500, errBody "Internal Server Error during AI analysis."⟩, 0)
  | .json data =>
    match data with
    | .obj fields =>
      if pyNotOpt (jget fields "task_text") then
        (⟨400, errBody "Missing task_text"⟩, 0)
      else
        (⟨500, errBody "Internal Server Error during AI analysis."⟩, 1)
    | _ => (⟨500, errBody "Internal Server Error during AI analysis."⟩, 0)

/-- Derived characterization for `suggest_handler`, as for
`analyzeFailResp`. -/
def suggestFailResp (body : RequestBody) : HttpResponse × Nat :=
  match body with
  | .noJson =>
    (⟨500, errBody "Internal Server Error during suggestion generation."⟩, 0)
  | .json data =>
    match data with
    | .obj fields =>
      if pyNotOpt (jget fields "partial_task") then
        (⟨400, errBody "Missing partial_task"⟩, 0)
      else
        (⟨500, errBody "Internal Server Error during suggestion generation."⟩, 1)
    | _ =>
      (⟨500, errBody "Internal Server Error during suggestion generation."⟩, 0)

/-- The number of entries of the `suggestions` field of a JSON object,
when that field is present and is an array. -/
def suggestionsLength (v : JValue) : Option Nat :=
  match v with
  | .obj fields =>
    match jget fields "suggestions" with
    | some (.arr xs) => some xs.length
    | _ => none
  | _ => none

/-- A syntactically valid provider JSON whose `effort_score` value
"Banana" is outside the declared enum. -/
def c1Provider : JValue :=
  .obj [("text", .str "Do taxes"), ("time", .str "unspecified"),
        ("category", .str "Work"), ("urgent", .bool false),
        ("note", .str ""), ("effort_score", .str "Banana")]

/-- A syntactically valid provider JSON lacking the required `urgent`
field. -/
def c2Provider : JValue :=
  .obj [("text", .str "Finish report"), ("time", .str "unspecified"),
        ("category", .str "Work"), ("note", .str "Tight deadline"),
        ("effort_score", .str "Low")]

/-- A provider JSON whose `suggestions` array has 2 entries, not 5. -/
def c6Provider : JValue :=
  .obj [("suggestions", .arr [.str "milk", .str "bread"])]

/-! ## Helper lemmas -/

/-- Full characterization of `analyze_handler`: either the chain produced
a parsed output, the input check passed, and the output is returned
verbatim with 200; or the response is `analyzeFailResp body`. -/
theorem analyze_handler_char (body : RequestBody) (chain : ChainOutcome) :
    (∃ v, chain = ChainOutcome.output v ∧
      analyze_handler body chain = (⟨200, v⟩, 1)) ∨
    analyze_handler body chain = analyzeFailResp body := by
  cases chain with
  | output v =>
    cases body with
    | noJson => right; rfl
    | json d =>
      cases d with
      | obj fields =>
        by_cases h : pyNotOpt (jget fields "task_text") = true
        · right; simp [analyze_handler, analyzeTry, analyzeFailResp, h]
        · left
          refine ⟨v, rfl, ?_⟩
          simp [analyze_handler, analyzeTry, h]
      | null => right; rfl
      | bool b => right; rfl
      | num n => right; rfl
      | str s => right; rfl
      | arr xs => right; rfl
  | parseFailure raw =>
    right
    cases body with
    | noJson => rfl
    | json d =>
      cases d with
      | obj fields =>
        by_cases h : pyNotOpt (jget fields "task_text") = true <;>
          simp [analyze_handler, analyzeTry, analyzeFailResp, isValidationError, h]
      | null => rfl
      | bool b => rfl
      | num n => rfl
      | str s => rfl
      | arr xs => rfl
  | transportFailure =>
    right
    cases body with
    | noJson => rfl
    | json d =>
      cases d with
      | obj fields =>
        by_cases h : pyNotOpt (jget fields "task_text") = true <;>
          simp [analyze_handler, analyzeTry, analyzeFailResp, isValidationError, h]
      | null => rfl
      | bool b => rfl
      | num n => rfl
      | str s => rfl
      | arr xs => rfl

/-- Full characterization of `suggest_handler`, as for
`analyze_handler_char`. -/
theorem suggest_handler_char (body : RequestBody) (chain : ChainOutcome) :
    (∃ v, chain = ChainOutcome.output v ∧
      suggest_handler body chain = (⟨200, v⟩, 1)) ∨
    suggest_handler body chain = suggestFailResp body := by
  cases chain with
  | output v =>
    cases body with
    | noJson => right; rfl
    | json d =>
      cases d with
      | obj fields =>
        by_cases h : pyNotOpt (jget fields "partial_task") = true
        · right; simp [suggest_handler, suggestTry, suggestFailResp, h]
        · left
          refine ⟨v, rfl, ?_⟩
          simp [suggest_handler, suggestTry, h]
      | null => right; rfl
      | bool b => right; rfl
      | num n => right; rfl
      | str s => right; rfl
      | arr xs => right; rfl
  | parseFailure raw =>
    right
    cases body with
    | noJson => rfl
    | json d =>
      cases d with
      | obj fields =>
        by_cases h : pyNotOpt (jget fields "partial_task") = true <;>
          simp [suggest_handler, suggestTry, suggestFailResp, h]
      | null => rfl
      | bool b => rfl
      | num n => rfl
      | str s => rfl
      | arr xs => rfl
  | transportFailure =>
    right
    cases body with
    | noJson => rfl
    | json d =>
      cases d with
      | obj fields =>
        by_cases h : pyNotOpt (jget fields "partial_task") = true <;>
          simp [suggest_handler, suggestTry, suggestFailResp, h]
      | null => rfl
      | bool b => rfl
      | num n => rfl
      | str s => rfl
      | arr xs => rfl

/-- `analyzeFailResp` takes one of exactly three values. -/
theorem analyzeFailResp_cases (body : RequestBody) :
    analyzeFailResp body = (⟨400, errBody "Missing task_text"⟩, 0) ∨
    analyzeFailResp body
      = (⟨500, errBody "Internal Server Error during AI analysis."⟩, 0) ∨
    analyzeFailResp body
      = (⟨500, errBody "Internal Server Error during AI analysis."⟩, 1) := by
  cases body with
  | noJson => right; left; rfl
  | json d =>
    cases d with
    | obj fields =>
      by_cases h : pyNotOpt (jget fields "task_text") = true
      · left; simp [analyzeFailResp, h]
      · right; right; simp [analyzeFailResp, h]
    | null => right; left; rfl
    | bool b => right; left; rfl
    | num n => right; left; rfl
    | str s => right; left; rfl
    | arr xs => right; left; rfl

/-- `suggestFailResp` takes one of exactly three values. -/
theorem suggestFailResp_cases (body : RequestBody) :
    suggestFailResp body = (⟨400, errBody "Missing partial_task"⟩, 0) ∨
    suggestFailResp body
      = (⟨500, errBody "Internal Server Error during suggestion generation."⟩, 0) ∨
    suggestFailResp body
      = (⟨500, errBody "Internal Server Error during suggestion generation."⟩, 1) := by
  cases body with
  | noJson => right; left; rfl
  | json d =>
    cases d with
    | obj fields =>
      by_cases h : pyNotOpt (jget fields "partial_task") = true
      · left; simp [suggestFailResp, h]
      · right; right; simp [suggestFailResp, h]
    | null => right; left; rfl
    | bool b => right; left; rfl
    | num n => right; left; rfl
    | str s => right; left; rfl
    | arr xs => right; left; rfl

/-- On a chain parse failure `analyze_handler` answers with
`analyzeFailResp`, independently of the provider's raw text. -/
theorem analyze_handler_parseFailure (body : RequestBody) (raw : String) :
    analyze_handler body (ChainOutcome.parseFailure raw)
      = analyzeFailResp body := by
  rcases analyze_handler_char body (ChainOutcome.parseFailure raw) with
    ⟨v, hv, _⟩ | h
  · exact ChainOutcome.noConfusion hv
  · exact h

/-- On a chain parse failure `suggest_handler` answers with
`suggestFailResp`, independently of the provider's raw text. -/
theorem suggest_handler_parseFailure (body : RequestBody) (raw : String) :
    suggest_handler body (ChainOutcome.parseFailure raw)
      = suggestFailResp body := by
  rcases suggest_handler_char body (ChainOutcome.parseFailure raw) with
    ⟨v, hv, _⟩ | h
  · exact ChainOutcome.noConfusion hv
  · exact h

/-! ## Claim theorems -/

/-- C1: the claim says a provider JSON whose `effort_score` is outside
{Low, Medium, High, Critical} is rejected (500) and never returned with
200.  The code violates this: `JsonOutputParser` performs no schema
validation, so the handler returns 200 with `effort_score = "Banana"`,
a value outside the declared enum, passed through verbatim. -/
theorem c1_invalid_enum_passed_through :
    analyze_handler (.json (.obj [("task_text", .str "Do taxes")]))
        (.output c1Provider)
      = (⟨200, c1Provider⟩, 1) ∧
    effortEnum.contains "Banana" = false ∧
    conformsTaskAnalysis c1Provider = false :=
  ⟨rfl, by decide, by decide⟩

/-- C2: the claim says a provider JSON lacking the required `urgent`
field yields a MissingField failure and 500.  The code violates this:
no schema validation runs, so the handler returns 200 with the
incomplete record. -/
theorem c2_missing_field_passed_through :
    analyze_handler (.json (.obj [("task_text", .str "Finish report ASAP")]))
        (.output c2Provider)
      = (⟨200, c2Provider⟩, 1) ∧
    hasKey c2Provider "urgent" = false ∧
    conformsTaskAnalysis c2Provider = false :=
  ⟨rfl, by decide, by decide⟩

/-- C3: the claim says a 200 body always conforms to the full schema,
with no silent defaulting.  The code violates this: the empty object
`{}` from the provider is returned with 200 although it conforms to
nothing. -/
theorem c3_partial_data_passed_through :
    analyze_handler (.json (.obj [("task_text", .str "plan trip")]))
        (.output (.obj []))
      = (⟨200, .obj []⟩, 1) ∧
    conformsTaskAnalysis (.obj []) = false :=
  ⟨rfl, by decide⟩

/-- C4: a request body whose `task_text` (resp. `partial_task`) is
absent or the empty string is answered with 400 and its error message,
and the provider is never invoked (call count 0), for both handlers. -/
theorem c4_fail_fast (fieldsA fieldsS : List (String × JValue))
    (chainA chainS : ChainOutcome)
    (hA : jget fieldsA "task_text" = none ∨
      jget fieldsA "task_text" = some (JValue.str ""))
    (hS : jget fieldsS "partial_task" = none ∨
      jget fieldsS "partial_task" = some (JValue.str "")) :
    analyze_handler (.json (.obj fieldsA)) chainA
      = (⟨400, errBody "Missing task_text"⟩, 0) ∧
    suggest_handler (.json (.obj fieldsS)) chainS
      = (⟨400, errBody "Missing partial_task"⟩, 0) := by
  constructor
  · have h1 : pyNotOpt (jget fieldsA "task_text") = true := by
      rcases hA with h | h <;> rw [h] <;> rfl
    cases chainA <;> simp [analyze_handler, analyzeTry, h1]
  · have h2 : pyNotOpt (jget fieldsS "partial_task") = true := by
      rcases hS with h | h <;> rw [h] <;> rfl
    cases chainS <;> simp [suggest_handler, suggestTry, h2]

/-- C4 witness: concrete instances of both hypotheses. -/
theorem c4_fail_fast_witness :
    analyze_handler (.json (.obj [])) ChainOutcome.transportFailure
      = (⟨400, errBody "Missing task_text"⟩, 0) ∧
    suggest_handler (.json (.obj [("partial_task", JValue.str "")]))
        ChainOutcome.transportFailure
      = (⟨400, errBody "Missing partial_task"⟩, 0) :=
  c4_fail_fast [] [("partial_task", JValue.str "")]
    ChainOutcome.transportFailure ChainOutcome.transportFailure
    (Or.inl rfl) (Or.inr rfl)

/-- C5: whenever the chain classifies the provider's raw text as
unparsable (`parseFailure`, the MalformedJSON case), the handler never
answers 200, and if the provider was actually consulted the response is
exactly the generic 500 error. -/
theorem c5_malformed_json_500 (body : RequestBody) (raw : String) :
    (analyze_handler body (ChainOutcome.parseFailure raw)).1.status ≠ 200 ∧
    ((analyze_handler body (ChainOutcome.parseFailure raw)).2 = 1 →
      analyze_handler body (ChainOutcome.parseFailure raw)
        = (⟨500, errBody "Internal Server Error during AI analysis."⟩, 1)) := by
  rw [analyze_handler_parseFailure]
  rcases analyzeFailResp_cases body with h | h | h <;> rw [h]
  · exact ⟨by decide, fun hn => absurd hn (by decide)⟩
  · exact ⟨by decide, fun hn => absurd hn (by decide)⟩
  · exact ⟨by decide, fun _ => rfl⟩

/-- C5 witness: a request with a non-empty `task_text` and an
unparsable provider response. -/
theorem c5_malformed_json_500_witness :
    (analyze_handler (.json (.obj [("task_text", JValue.str "t")]))
        (ChainOutcome.parseFailure "not json")).1.status ≠ 200 ∧
    ((analyze_handler (.json (.obj [("task_text", JValue.str "t")]))
        (ChainOutcome.parseFailure "not json")).2 = 1 →
      analyze_handler (.json (.obj [("task_text", JValue.str "t")]))
          (ChainOutcome.parseFailure "not json")
        = (⟨500, errBody "Internal Server Error during AI analysis."⟩, 1)) :=
  c5_malformed_json_500 (.json (.obj [("task_text", JValue.str "t")]))
    "not json"

/-- C6 counterexample: the claim says a 200 response of /api/suggest
always carries exactly 5 suggestions.  The code violates this: a
provider JSON with 2 suggestions is returned with 200 unchanged. -/
theorem c6_counterexample_two_suggestions :
    suggest_handler (.json (.obj [("partial_task", .str "Buy groceries for")]))
        (.output c6Provider)
      = (⟨200, c6Provider⟩, 1) ∧
    suggestionsLength c6Provider = some 2 :=
  ⟨rfl, rfl⟩

/-- C6 amended: whenever the `partial_task` check passes, the suggest
handler returns the provider's parsed JSON unchanged with 200; the
number of suggestions is never inspected, so any count (and any shape)
reaches the caller as a 200 success. -/
theorem c6_suggestions_not_checked (fields : List (String × JValue))
    (v : JValue) (h : pyNotOpt (jget fields "partial_task") = false) :
    suggest_handler (.json (.obj fields)) (.output v) = (⟨200, v⟩, 1) := by
  simp [suggest_handler, suggestTry, h]

/-- C6 amended witness: concrete instance of the hypothesis. -/
theorem c6_suggestions_not_checked_witness :
    suggest_handler (.json (.obj [("partial_task", JValue.str "Buy")]))
        (.output (.obj [])) = (⟨200, .obj []⟩, 1) :=
  c6_suggestions_not_checked [("partial_task", JValue.str "Buy")]
    (.obj []) (by decide)

/-- C7: a missing `GEMINI_API_KEY` makes module initialization fail with
the `ValueError` message before the Flask app (and hence any listener)
exists; conversely any state the server runs with holds a non-empty
credential taken from the environment. -/
theorem c7_startup_fails_closed (env : String → Option String) :
    (env "GEMINI_API_KEY" = none →
      moduleInit env = .error "GEMINI_API_KEY environment variable not found. Please set it in Netlify or .env.") ∧
    (∀ st : AppState, moduleInit env = .ok st →
      env "GEMINI_API_KEY" = some st.apiKey ∧ st.apiKey ≠ "") := by
  constructor
  · intro h
    simp [moduleInit, h]
  · intro st h
    unfold moduleInit at h
    split at h
    · exact absurd h (by simp)
    · rename_i k he
      split at h
      · exact absurd h (by simp)
      · rename_i hk
        injection h with h2
        subst h2
        refine ⟨he, ?_⟩
        intro hkE
        apply hk
        have hkE2 : k = "" := hkE
        rw [hkE2]
        decide

/-- C7 witness: the empty environment. -/
theorem c7_startup_fails_closed_witness :
    moduleInit (fun _ => none)
      = .error "GEMINI_API_KEY environment variable not found. Please set it in Netlify or .env." :=
  (c7_startup_fails_closed (fun _ => none)).1 rfl

/-- C8: the response to a provider output that fails validation does not
depend on the provider's raw text (the same for any two such outputs),
and when the provider was consulted the surfaced body is exactly the
fixed generic error of the handler — no raw text or exception detail. -/
theorem c8_generic_error_no_leak (body : RequestBody) (raw1 raw2 : String) :
    analyze_handler body (ChainOutcome.parseFailure raw1)
      = analyze_handler body (ChainOutcome.parseFailure raw2) ∧
    suggest_handler body (ChainOutcome.parseFailure raw1)
      = suggest_handler body (ChainOutcome.parseFailure raw2) ∧
    ((analyze_handler body (ChainOutcome.parseFailure raw1)).2 = 1 →
      (analyze_handler body (ChainOutcome.parseFailure raw1)).1
        = ⟨500, errBody "Internal Server Error during AI analysis."⟩) ∧
    ((suggest_handler body (ChainOutcome.parseFailure raw1)).2 = 1 →
      (suggest_handler body (ChainOutcome.parseFailure raw1)).1
        = ⟨500, errBody "Internal Server Error during suggestion generation."⟩) := by
  refine ⟨?_, ?_, ?_, ?_⟩
  · rw [analyze_handler_parseFailure, analyze_handler_parseFailure]
  · rw [suggest_handler_parseFailure, suggest_handler_parseFailure]
  · rw [analyze_handler_parseFailure]
    rcases analyzeFailResp_cases body with h | h | h <;> rw [h]
    · exact fun hn => absurd hn (by decide)
    · exact fun hn => absurd hn (by decide)
    · exact fun _ => rfl
  · rw [suggest_handler_parseFailure]
    rcases suggestFailResp_cases body with h | h | h <;> rw [h]
    · exact fun hn => absurd hn (by decide)
    · exact fun hn => absurd hn (by decide)
    · exact fun _ => rfl

/-- C8 witness: two distinct unparsable provider outputs on a request
that reaches the provider. -/
theorem c8_generic_error_no_leak_witness :
    analyze_handler (.json (.obj [("task_text", JValue.str "t")]))
        (ChainOutcome.parseFailure "secret A")
      = analyze_handler (.json (.obj [("task_text", JValue.str "t")]))
        (ChainOutcome.parseFailure "secret B") ∧
    suggest_handler (.json (.obj [("task_text", JValue.str "t")]))
        (ChainOutcome.parseFailure "secret A")
      = suggest_handler (.json (.obj [("task_text", JValue.str "t")]))
        (ChainOutcome.parseFailure "secret B") ∧
    ((analyze_handler (.json (.obj [("task_text", JValue.str "t")]))
        (ChainOutcome.parseFailure "secret A")).2 = 1 →
      (analyze_handler (.json (.obj [("task_text", JValue.str "t")]))
        (ChainOutcome.parseFailure "secret A")).1
        = ⟨500, errBody "Internal Server Error during AI analysis."⟩) ∧
    ((suggest_handler (.json (.obj [("task_text", JValue.str "t")]))
        (ChainOutcome.parseFailure "secret A")).2 = 1 →
      (suggest_handler (.json (.obj [("task_text", JValue.str "t")]))
        (ChainOutcome.parseFailure "secret A")).1
        = ⟨500, errBody "Internal Server Error during suggestion generation."⟩) :=
  c8_generic_error_no_leak (.json (.obj [("task_text", JValue.str "t")]))
    "secret A" "secret B"

/-- C9: for every request body and chain behaviour, each handler yields
a response (totality: nothing escapes), with status 200, or status 400
or 500 together with a JSON body carrying an `error` key. -/
theorem c9_boundary_total (body : RequestBody) (chain : ChainOutcome) :
    ((analyze_handler body chain).1.status = 200 ∨
      (((analyze_handler body chain).1.status = 400 ∨
        (analyze_handler body chain).1.status = 500) ∧
        hasKey (analyze_handler body chain).1.body "error" = true)) ∧
    ((suggest_handler body chain).1.status = 200 ∨
      (((suggest_handler body chain).1.status = 400 ∨
        (suggest_handler body chain).1.status = 500) ∧
        hasKey (suggest_handler body chain).1.body "error" = true)) := by
  constructor
  · rcases analyze_handler_char body chain with ⟨v, _, h⟩ | h
    · rw [h]; left; rfl
    · rw [h]
      rcases analyzeFailResp_cases body with h2 | h2 | h2 <;> rw [h2] <;>
        right <;> exact ⟨by decide, by decide⟩
  · rcases suggest_handler_char body chain with ⟨v, _, h⟩ | h
    · rw [h]; left; rfl
    · rw [h]
      rcases suggestFailResp_cases body with h2 | h2 | h2 <;> rw [h2] <;>
        right <;> exact ⟨by decide, by decide⟩

/-- C10: a request whose body is absent or not parseable JSON makes
`request.get_json()` raise; the blanket `except Exception` converts this
to the generic 500 body (never the 400 reserved for a missing field),
and the provider is not invoked. -/
theorem c10_bad_body_is_500 (chain : ChainOutcome) :
    analyze_handler RequestBody.noJson chain
      = (⟨500, errBody "Internal Server Error during AI analysis."⟩, 0) ∧
    suggest_handler RequestBody.noJson chain
      = (⟨500, errBody "Internal Server Error during suggestion generation."⟩, 0) :=
  ⟨rfl, rfl⟩
